import Mathlib

/-!
Shallow embedding of the learn_wgpu renderer (IceSentry/learn_wgpu) for
checking its natural-language specification.

Sources embedded below:
- `src/model.rs` — `Material`, `ModelMesh`, `Model::draw_instanced`,
  `Material::new`
- `src/render_phase_3d.rs` — `OpaquePass::from_world` (pipeline descriptors),
  `OpaquePass::render`, `RenderPhase3d::render`
- `src/depth_pass/mod.rs` — `DepthPass::render`
- `src/light.rs` — `draw_light_model`
- `src/resources.rs` — `load_model` (material substitution, material ids)
- `src/instances.rs` — `create_instance_buffer`, `update_instance_buffer`
- `src/mesh.rs` — `MeshUniform::from_mesh` (matrix composition, via glam's
  `Mat4::from_scale_rotation_translation`)
- `src/renderer.rs` — `Renderer::render` (surface-acquisition error path)

f32 scalars that the code only ever compares with `==` and `<` are modelled
as either an exact rational or NaN, with IEEE-754 comparison semantics
(every comparison involving NaN is false).  GPU handles (buffers, bind
groups, textures) are modelled by the stable labels the code creates them
with; command recording is modelled as emitting a list of commands.
-/

namespace LearnWgpu

/-- Model of an `f32` scalar: an exact finite value or NaN.  The renderer
only ever compares alphas with `==` and `<`, and both comparisons are false
whenever one side is NaN, which this model reproduces exactly. -/
inductive F32 where
  | fin (q : ℚ)
  | nan
  deriving DecidableEq, Repr

/-- IEEE `==` on the f32 model: true only on equal finite values. -/
def F32.eqF : F32 → F32 → Bool
  | .fin a, .fin b => decide (a = b)
  | _, _ => false

/-- IEEE `<` on the f32 model: true only on ordered finite values. -/
def F32.ltF : F32 → F32 → Bool
  | .fin a, .fin b => decide (a < b)
  | _, _ => false

/-- The literal `1.0`. -/
def F32.one : F32 := .fin 1

/-- Vector of four exact scalar components (used for `base_color : Vec4`). -/
structure Vec4 where
  x : ℚ
  y : ℚ
  z : ℚ
  w : ℚ
  deriving DecidableEq, Repr

/-- Struct `MaterialUniform` from `src/renderer/bind_groups/material.rs` (also in
`src/material.rs`): the data written into the GPU material uniform. -/
structure MaterialUniform where
  base_color : Vec4
  alpha : F32
  deriving DecidableEq, Repr

/-- A material bind group: the uniform contents it was built from plus the
texture it references (`bind_groups::material::create_bind_group`). -/
structure BindGroup where
  uniform : MaterialUniform
  texture : String
  deriving DecidableEq, Repr

/-- Struct `Material` from `src/model.rs`. -/
structure Material where
  name : String
  diffuse_texture : String
  alpha : F32
  bind_group : BindGroup
  deriving DecidableEq, Repr

/-- Constructor `Material::new` from `src/model.rs:102-122`: builds the bind group from
the `alpha` argument but stores the literal `1.0` in the `alpha` field. -/
def Material.new (name : String) (texture : String) (base_color : Vec4)
    (alpha : F32) : Material :=
  let bind_group : BindGroup :=
    { uniform := { base_color := base_color, alpha := alpha }, texture := texture }
  { name := name
    diffuse_texture := texture
    alpha := F32.one
    bind_group := bind_group }

/-- Struct `ModelMesh` from `src/model.rs`: vertex/index buffers are identified by
the mesh name they were created for. -/
structure ModelMesh where
  name : String
  num_elements : Nat
  material_id : Nat
  deriving DecidableEq, Repr

/-- Struct `Model` from `src/model.rs`. -/
structure Model where
  meshes : List ModelMesh
  materials : List Material
  deriving DecidableEq, Repr

/-- One recorded command on a `wgpu::RenderPass` / `CommandEncoder`. -/
inductive Cmd where
  | beginRenderPass (label : String) (colorLoadIsClear : Bool) (depthClear : Option ℚ)
  | endRenderPass
  | setPipeline (label : String)
  | setVertexBuffer (slot : Nat) (buffer : String)
  | setIndexBuffer (buffer : String)
  | setBindGroup (index : Nat) (group : String)
  | drawIndexed (mesh : String) (num_elements : Nat) (instances : Nat)
  deriving DecidableEq, Repr

/-- Function `ModelMesh::draw_instanced` from `src/model.rs:145-157`: binds the
mesh's buffers, the view bind group and the material bind group, then
issues one indexed instanced draw. -/
def ModelMesh.draw_instanced (mesh : ModelMesh) (instances : Nat)
    (material : Material) (mesh_view_bind_group : String) : List Cmd :=
  [ .setVertexBuffer 0 mesh.name
  , .setIndexBuffer mesh.name
  , .setBindGroup 0 mesh_view_bind_group
  , .setBindGroup 1 material.name
  , .drawIndexed mesh.name mesh.num_elements instances ]

/-- Fallback material for the out-of-bounds case of the Rust indexing
`self.materials[mesh.material_id]` (which would panic); the claims only use
`Model.draw_instanced` under an in-bounds hypothesis. -/
def Material.oobFallback : Material :=
  { name := "<index out of bounds>"
    diffuse_texture := ""
    alpha := .nan
    bind_group := { uniform := { base_color := ⟨0,0,0,0⟩, alpha := .nan }, texture := "" } }

/-- The commands `Model::draw_instanced` (`src/model.rs:61-90`) records for
one mesh of the model: the mesh's material is looked up by `material_id`,
the transparent branch draws only when `alpha < 1.0`, the opaque branch
only when `alpha == 1.0`. -/
def Model.meshDraws (m : Model) (instances : Nat) (transparent : Bool)
    (mesh_view_bind_group : String) (mesh : ModelMesh) : List Cmd :=
  let material := m.materials.getD mesh.material_id Material.oobFallback
  (if transparent && F32.ltF material.alpha F32.one then
    mesh.draw_instanced instances material mesh_view_bind_group
  else []) ++
  (if !transparent && F32.eqF material.alpha F32.one then
    mesh.draw_instanced instances material mesh_view_bind_group
  else [])

/-- Function `Model::draw_instanced` from `src/model.rs:61-90`. -/
def Model.draw_instanced (m : Model) (instances : Nat) (transparent : Bool)
    (mesh_view_bind_group : String) : List Cmd :=
  m.meshes.flatMap (m.meshDraws instances transparent mesh_view_bind_group)

/-- Function `Model::draw` from `src/model.rs:52-59`: instance range `0..1`. -/
def Model.draw (m : Model) (transparent : Bool)
    (mesh_view_bind_group : String) : List Cmd :=
  m.draw_instanced 1 transparent mesh_view_bind_group

/-! ## Pipeline descriptors (`OpaquePass::from_world`, `src/render_phase_3d.rs:86-191`) -/

/-- Enum `wgpu::CompareFunction` (the variants the descriptors can mention). -/
inductive CompareFunction where
  | never | less | equal | lessEqual | greater | notEqual | greaterEqual | always
  deriving DecidableEq, Repr

/-- Enum `wgpu::TextureFormat`: the variants used for depth attachments. -/
inductive TextureFormat where
  | depth32Float | bgra8UnormSrgb
  deriving DecidableEq, Repr

/-- Constant `Texture::DEPTH_FORMAT` from `src/texture.rs:10`. -/
def Texture.DEPTH_FORMAT : TextureFormat := .depth32Float

/-- Struct `wgpu::DepthStencilState` (stencil and bias are left at their defaults
everywhere in the code and are omitted). -/
structure DepthStencilState where
  format : TextureFormat
  depth_write_enabled : Bool
  depth_compare : CompareFunction
  deriving DecidableEq, Repr

/-- Enum of the `wgpu::BlendState` constants used by the code. -/
inductive BlendState where
  | replace | alphaBlending
  deriving DecidableEq, Repr

/-- Bind group layouts, named by the function that creates them. -/
inductive BindGroupLayoutId where
  | camera   -- `camera::bind_group_layout`
  | light    -- `Light::bind_group_layout`
  | texture  -- `texture::bind_group_layout`
  deriving DecidableEq, Repr

/-- Struct `wgpu::PipelineLayout`. -/
structure PipelineLayout where
  label : String
  bind_group_layouts : List BindGroupLayoutId
  deriving DecidableEq, Repr

/-- Vertex buffer layouts, named by the `layout()` function that builds
them (`ModelVertex::layout`, `TransformRaw::layout`). -/
inductive VertexLayoutId where
  | modelVertex | transformRaw
  deriving DecidableEq, Repr

/-- The arguments `WgpuRenderer::create_render_pipeline` is called with. -/
structure RenderPipelineDescriptor where
  label : String
  shader : String
  layout : PipelineLayout
  buffers : List VertexLayoutId
  depth_stencil : Option DepthStencilState
  blend : BlendState
  deriving DecidableEq, Repr

/-- The shared `Render Pipeline Layout` from `src/render_phase_3d.rs:115-126`. -/
def render_pipeline_layout : PipelineLayout :=
  { label := "Render Pipeline Layout"
    bind_group_layouts := [.camera, .light, .texture] }

/-- The opaque pipeline from `src/render_phase_3d.rs:129-142`. -/
def render_pipeline : RenderPipelineDescriptor :=
  { label := "Opaque Render Pipeline"
    shader := "shaders/shader.wgsl"
    layout := render_pipeline_layout
    buffers := [.modelVertex, .transformRaw]
    depth_stencil := some
      { format := Texture.DEPTH_FORMAT
        depth_write_enabled := true
        depth_compare := .less }
    blend := .replace }

/-- The transparent pipeline from `src/render_phase_3d.rs:144-157`. -/
def transparent_render_pipeline : RenderPipelineDescriptor :=
  { label := "Transparent Render Pipeline"
    shader := "shaders/shader.wgsl"
    layout := render_pipeline_layout
    buffers := [.modelVertex, .transformRaw]
    depth_stencil := some
      { format := Texture.DEPTH_FORMAT
        depth_write_enabled := true
        depth_compare := .less }
    blend := .alphaBlending }

/-- The light-marker pipeline from `src/render_phase_3d.rs:159-181`. -/
def light_render_pipeline : RenderPipelineDescriptor :=
  { label := "Light Render Pipeline"
    shader := "shaders/light.wgsl"
    layout :=
      { label := "Light Pipeline Layout"
        bind_group_layouts := [.camera, .light] }
    buffers := [.modelVertex]
    depth_stencil := some
      { format := Texture.DEPTH_FORMAT
        depth_write_enabled := false
        depth_compare := .less }
    blend := .replace }

/-- Standard depth-test semantics for one fragment: the stored depth value
changes (to the fragment's depth) only when the compare function passes and
`depth_write_enabled` is set. -/
def depthAfterFragment (ds : DepthStencilState) (stored fragment : ℚ) : ℚ :=
  let passes :=
    match ds.depth_compare with
    | .never => false
    | .less => decide (fragment < stored)
    | .equal => decide (fragment = stored)
    | .lessEqual => decide (fragment ≤ stored)
    | .greater => decide (fragment > stored)
    | .notEqual => decide (fragment ≠ stored)
    | .greaterEqual => decide (fragment ≥ stored)
    | .always => true
  if passes && ds.depth_write_enabled then fragment else stored

/-! ## Light-marker draws (`src/light.rs`) -/

/-- Function `draw_light_mesh_instanced` from `src/light.rs:77-89`. -/
def draw_light_mesh_instanced (mesh : ModelMesh) (instances : Nat)
    (camera_bind_group light_bind_group : String) : List Cmd :=
  [ .setVertexBuffer 0 mesh.name
  , .setIndexBuffer mesh.name
  , .setBindGroup 0 camera_bind_group
  , .setBindGroup 1 light_bind_group
  , .drawIndexed mesh.name mesh.num_elements instances ]

/-- Function `draw_light_model` from `src/light.rs:91-122`: each mesh of the light's
proxy model, instance range `0..1`. -/
def draw_light_model (model : Model)
    (camera_bind_group light_bind_group : String) : List Cmd :=
  model.meshes.flatMap
    (fun mesh => draw_light_mesh_instanced mesh 1 camera_bind_group light_bind_group)

/-! ## The per-frame command sequence
(`OpaquePass::render`, `src/render_phase_3d.rs:199-287`;
`RenderPhase3d::render`, `src/render_phase_3d.rs:45-54`;
`DepthPass::render`, `src/depth_pass/mod.rs:124-142`) -/

/-- One row of `OpaquePass`'s `model_query`: a `Model` with its
`InstanceBuffer` and optionally an `Instances` list (whose length is the
instance count drawn; entities without one are drawn via `Model::draw`,
i.e. with one instance). -/
structure RenderEntity where
  model : Model
  instance_buffer : String
  instances : Option Nat
  deriving DecidableEq, Repr

/-- The instance count an entity is drawn with
(`0..instances.0.len()` vs `Model::draw`'s `0..1`). -/
def RenderEntity.instanceCount (e : RenderEntity) : Nat :=
  match e.instances with
  | some n => n
  | none => 1

/-- The data `OpaquePass::render` reads from the ECS `World`: the rows of
`model_query` (entities that are neither lights nor tagged `Transparent`),
the rows of `light_query`, the clear color, and the `ShowDepthBuffer`
flag read by `RenderPhase3d::render`. -/
structure World where
  models : List RenderEntity
  light_models : List Model
  clear_color_is_set : Bool
  show_depth_buffer : Bool
  deriving DecidableEq, Repr

/-- The label of the camera/light (`mesh_view`) bind groups the pass binds.
`render_phase_3d.rs` passes the camera and light bind groups where
`src/model.rs`'s `draw_instanced` takes a single view bind-group argument;
the label stands for that bound view data. -/
def cameraBindGroupLabel : String := "camera_bind_group"

/-- The body of the per-entity loop of `OpaquePass::render`
(`src/render_phase_3d.rs:232-252` for the opaque section,
`256-276` for the transparent section): bind the entity's instance buffer
at slot 1, then `Model::draw_instanced` (or `Model::draw`). -/
def entityDraws (transparent : Bool) (e : RenderEntity) : List Cmd :=
  Cmd.setVertexBuffer 1 e.instance_buffer ::
    (match e.instances with
     | some n => e.model.draw_instanced n transparent cameraBindGroupLabel
     | none => e.model.draw transparent cameraBindGroupLabel)

/-- Method `OpaquePass::render` from `src/render_phase_3d.rs:199-287`: open one
render pass clearing color and depth (depth to `1.0`), draw all
`model_query` entities with the opaque pipeline, then all of them again
with the transparent pipeline, then the light markers, then end the pass. -/
def OpaquePass.render (w : World) : List Cmd :=
  Cmd.beginRenderPass "Opaque Render Pass" true (some 1) ::
  Cmd.setPipeline "Opaque Render Pipeline" ::
  (w.models.flatMap (entityDraws false) ++
   (Cmd.setPipeline "Transparent Render Pipeline" ::
    (w.models.flatMap (entityDraws true) ++
     (Cmd.setPipeline "Light Render Pipeline" ::
      (w.light_models.flatMap
        (fun m => draw_light_model m cameraBindGroupLabel "light_bind_group") ++
       [Cmd.endRenderPass])))))

/-- Method `DepthPass::render` from `src/depth_pass/mod.rs:124-142`: a follow-on
pass over the same color target with `LoadOp::Load` and no depth
attachment, drawing the full-screen quad. -/
def DepthPass.render : List Cmd :=
  [ .beginRenderPass "Depth Visual Render Pass" false none
  , .setPipeline "Depth Pass Render Pipeline"
  , .setBindGroup 0 "depth_pass.bind_group"
  , .setVertexBuffer 0 "Depth Pass VB"
  , .setIndexBuffer "Depth Pass IB"
  , .drawIndexed "depth quad" 6 1
  , .endRenderPass ]

/-- Method `RenderPhase3d::render` from `src/render_phase_3d.rs:45-54`: the main
pass, then the depth pass iff the `ShowDepthBuffer` resource is set. -/
def RenderPhase3d.render (w : World) : List Cmd :=
  OpaquePass.render w ++ (if w.show_depth_buffer then DepthPass.render else [])

/-- A step of the whole frame, as performed by the renderer around
`RenderPhase3d::render`. -/
inductive FrameStep where
  | acquireTarget
  | cmd (c : Cmd)
  | logSurfaceError
  | submit
  | present
  deriving DecidableEq, Repr

/-- Modelled from the spec: `renderer::WgpuRenderer::render` (the module
`src/renderer.rs` in this snapshot holds an older standalone renderer, so
the `WgpuRenderer` used by `render_phase_3d.rs` is not under `src/`).  Per
spec §4.4/§7 it acquires the next frame target, records the
`RenderPhase3d` commands into one encoder, submits and presents; on
acquisition failure the frame is abandoned after logging. -/
def WgpuRenderer.render (acquire_ok : Bool) (w : World) : List FrameStep :=
  if acquire_ok then
    FrameStep.acquireTarget ::
      ((RenderPhase3d.render w).map FrameStep.cmd ++
       [FrameStep.submit, FrameStep.present])
  else
    [FrameStep.acquireTarget, FrameStep.logSurfaceError]

/-! ## Transforms and instance matrices
(`src/mesh.rs:97-108`, `src/instances.rs`; glam's
`Mat4::from_scale_rotation_translation` spelled out over exact scalars) -/

/-- Vector of three exact scalar components. -/
structure Vec3 where
  x : ℚ
  y : ℚ
  z : ℚ
  deriving DecidableEq, Repr

/-- Quaternion (glam `Quat`), components exact. -/
structure Quat where
  x : ℚ
  y : ℚ
  z : ℚ
  w : ℚ
  deriving DecidableEq, Repr

/-- Column-major 4x4 matrix (glam `Mat4`). -/
structure Mat4 where
  x_axis : Vec4
  y_axis : Vec4
  z_axis : Vec4
  w_axis : Vec4
  deriving DecidableEq, Repr

/-- Component-wise scalar multiple of a column. -/
def Vec4.scale (v : Vec4) (s : ℚ) : Vec4 := ⟨v.x * s, v.y * s, v.z * s, v.w * s⟩

/-- Component-wise sum of columns. -/
def Vec4.add (a b : Vec4) : Vec4 := ⟨a.x + b.x, a.y + b.y, a.z + b.z, a.w + b.w⟩

/-- glam `Mat4::mul_vec4`: linear combination of the columns. -/
def Mat4.mulVec4 (m : Mat4) (v : Vec4) : Vec4 :=
  (((m.x_axis.scale v.x).add (m.y_axis.scale v.y)).add (m.z_axis.scale v.z)).add
    (m.w_axis.scale v.w)

/-- glam `Mat4::mul_mat4` (`*`): columns of `rhs` mapped through `lhs`. -/
def Mat4.mul (a b : Mat4) : Mat4 :=
  ⟨a.mulVec4 b.x_axis, a.mulVec4 b.y_axis, a.mulVec4 b.z_axis, a.mulVec4 b.w_axis⟩

/-- glam's `quat_to_axes`: the three rotation columns of a unit quaternion. -/
def quatToAxes (r : Quat) : Vec4 × Vec4 × Vec4 :=
  let x2 := r.x + r.x
  let y2 := r.y + r.y
  let z2 := r.z + r.z
  let xx := r.x * x2
  let xy := r.x * y2
  let xz := r.x * z2
  let yy := r.y * y2
  let yz := r.y * z2
  let zz := r.z * z2
  let wx := r.w * x2
  let wy := r.w * y2
  let wz := r.w * z2
  ( ⟨1 - (yy + zz), xy + wz, xz - wy, 0⟩
  , ⟨xy - wz, 1 - (xx + zz), yz + wx, 0⟩
  , ⟨xz + wy, yz - wx, 1 - (xx + yy), 0⟩ )

/-- glam `Mat4::from_scale_rotation_translation`: rotation columns scaled
per axis, translation in the fourth column. -/
def Mat4.from_scale_rotation_translation (scale : Vec3) (rotation : Quat)
    (translation : Vec3) : Mat4 :=
  let axes := quatToAxes rotation
  ⟨ axes.1.scale scale.x
  , axes.2.1.scale scale.y
  , axes.2.2.scale scale.z
  , ⟨translation.x, translation.y, translation.z, 1⟩ ⟩

/-- glam `Mat4::from_translation`. -/
def Mat4.from_translation (t : Vec3) : Mat4 :=
  ⟨⟨1,0,0,0⟩, ⟨0,1,0,0⟩, ⟨0,0,1,0⟩, ⟨t.x, t.y, t.z, 1⟩⟩

/-- glam `Mat4::from_quat`. -/
def Mat4.from_quat (r : Quat) : Mat4 :=
  let axes := quatToAxes r
  ⟨axes.1, axes.2.1, axes.2.2, ⟨0,0,0,1⟩⟩

/-- glam `Mat4::from_scale`. -/
def Mat4.from_scale (s : Vec3) : Mat4 :=
  ⟨⟨s.x,0,0,0⟩, ⟨0,s.y,0,0⟩, ⟨0,0,s.z,0⟩, ⟨0,0,0,1⟩⟩

/-- Struct `Transform` (translation, rotation, scale), as used by
`src/mesh.rs` and `src/instances.rs`. -/
structure Transform where
  translation : Vec3
  rotation : Quat
  scale : Vec3
  deriving DecidableEq, Repr

/-- The matrix part of `MeshUniform::from_mesh` (`src/mesh.rs:97-108`):
`Mat4::from_scale_rotation_translation(scale, rotation, translation)`.
(The uniform's normal matrix is not involved in any claim.) -/
def MeshUniform.from_mesh (t : Transform) : Mat4 :=
  Mat4.from_scale_rotation_translation t.scale t.rotation t.translation

/-- Modelled from the spec: `Transform::to_raw` lives in `src/transform.rs`,
which is not under `src/` in this snapshot.  Per spec §4.3 the per-instance
matrix is `translation * rotation * scale` (scale first), which is glam's
`from_scale_rotation_translation` — the same composition
`MeshUniform::from_mesh` (`src/mesh.rs`) uses. -/
def Transform.to_raw (t : Transform) : Mat4 :=
  Mat4.from_scale_rotation_translation t.scale t.rotation t.translation

/-- The packed data `update_instance_buffer` writes
(`src/instances.rs:73-83`): `instances.0.iter().map(Transform::to_raw)`. -/
def instanceData (instances : List Transform) : List Mat4 :=
  instances.map Transform.to_raw

/-! ## Instance buffer lifecycle (`src/instances.rs`) -/

/-- The per-entity GPU state the instance systems touch: the optional
`InstanceBuffer` component (modelled by its matrix contents) and how many
buffer allocations have been performed for the entity. -/
structure EntityBufferState where
  buffer : Option (List Mat4)
  creations : Nat
  deriving DecidableEq, Repr

/-- What one frame presents to the two instance systems: the entity's
current `Instances` list and whether it is marked `Changed` this frame. -/
structure InstanceFrame where
  instances : List Transform
  changed : Bool
  deriving DecidableEq, Repr

/-- One frame of the two systems of `src/instances.rs` for an entity
carrying `Model` + `Instances`:
`create_instance_buffer` (lines 17-71) fires only while the entity has no
`InstanceBuffer` (the `Added<Instances>`/`Without<InstanceBuffer>` filter:
the buffer is inserted via `Commands`, so the same frame's
`update_instance_buffer` cannot see it yet), allocating a buffer holding
the current instance data; `update_instance_buffer` (lines 73-83) fires on
frames where `Instances` is `Changed` and rewrites the existing buffer in
place from offset 0 with the current packed matrices. -/
def instanceFrameStep (s : EntityBufferState) (f : InstanceFrame) : EntityBufferState :=
  match s.buffer with
  | none =>
    { buffer := some (instanceData f.instances), creations := s.creations + 1 }
  | some _ =>
    if f.changed then { s with buffer := some (instanceData f.instances) } else s

/-- The entity's buffer state after the first `k` frames, starting from the
spawn state (no buffer, no allocations yet). -/
def stateAfter (frames : List InstanceFrame) (k : Nat) : EntityBufferState :=
  (frames.take k).foldl instanceFrameStep ⟨none, 0⟩

/-! ## `load_model` material substitution (`src/resources.rs:43-150`) -/

/-- The fields of a `tobj` mesh that `load_model` turns into a `ModelMesh`:
its index count and its optional material index. -/
structure ObjMesh where
  name : String
  num_indices : Nat
  material_id : Option Nat
  deriving DecidableEq, Repr

/-- The default material pushed by `load_model` when the loaded material
list is empty (`src/resources.rs:78-86`): name `"default texture"`,
texture `"pink.png"`.  Modelled from the spec for the alpha value: the
`Material` struct of this snapshot of `src/resources.rs` carries no alpha
field, and spec §4.1/§7 state the substituted default is fully opaque, so
its alpha is `1.0`. -/
def default_material : Material :=
  { name := "default texture"
    diffuse_texture := "pink.png"
    alpha := F32.one
    bind_group :=
      { uniform := { base_color := ⟨1,1,1,1⟩, alpha := F32.one }
        texture := "pink.png" } }

/-- Function `load_model` from `src/resources.rs:43-150`, restricted to the logic
the claims are about: `source_materials` is the material list built from
the obj's mtl data (lines 68-77, one `Material` per obj material); if it
is empty the single default material is substituted (lines 78-86); each
mesh's `material_id` is `m.mesh.material_id.unwrap_or(0)` (line 144). -/
def load_model (source_materials : List Material) (obj_meshes : List ObjMesh) :
    Model :=
  let materials :=
    if source_materials.isEmpty then [default_material] else source_materials
  let meshes := obj_meshes.map (fun m =>
    { name := m.name
      num_elements := m.num_indices
      material_id := m.material_id.getD 0 : ModelMesh })
  { meshes := meshes, materials := materials }

/-! ## Per-frame error handling (`src/renderer.rs:433-479`, `src/main.rs:278-284`) -/

/-- The externally visible effects of one `Renderer::render` call. -/
inductive Effect where
  | droppedFrameLog
  | mainPassDraw
  | debugText
  | imguiDraw
  | submit
  | crashed
  deriving DecidableEq, Repr

/-- The debug-overlay toggles `Renderer::render` consults. -/
structure DebugConfig where
  glyph : Bool
  imgui : Bool
  deriving DecidableEq, Repr

/-- Method `Renderer::render` from `src/renderer.rs:433-479`: the outcome of
`swap_chain.get_next_texture()` is the `acquire` input.  On `Err` the
frame is logged as dropped and the function returns before recording or
submitting anything (no crash path exists); on `Ok` the main pass is
recorded, the optional debug overlays drawn, and the commands submitted. -/
def Renderer.render (acquire : Except String Unit) (config : DebugConfig) :
    List Effect :=
  match acquire with
  | .error _ => [.droppedFrameLog]
  | .ok _ =>
    Effect.mainPassDraw ::
      ((if config.glyph then [Effect.debugText] else []) ++
       (if config.imgui then [Effect.imguiDraw] else []) ++
       [Effect.submit])

/-- The frame loop: `render` is invoked once per tick
(`src/main.rs:67,278-284`), each tick's acquisition outcome listed. -/
def renderFrames (frames : List (Except String Unit)) (config : DebugConfig) :
    List (List Effect) :=
  frames.map (fun f => Renderer.render f config)

/-! ## Derived observations and concrete scene data -/

/-- Whether a command is an actual draw call. -/
def isDrawCmd : Cmd → Bool
  | .drawIndexed _ _ _ => true
  | _ => false

/-- Number of draw calls in a command list. -/
def countDraws (cmds : List Cmd) : Nat := cmds.countP isDrawCmd

/-- The material `Model::draw_instanced` looks up for a mesh
(`src/model.rs:70`). -/
def materialOf (m : Model) (mesh : ModelMesh) : Material :=
  m.materials.getD mesh.material_id Material.oobFallback

/-- Whether a frame step is a draw of the mesh with the given name. -/
def isMeshDraw : FrameStep → String → Bool
  | .cmd (.drawIndexed m _ _), name => m == name
  | _, _ => false

/-- Every draw of `lightMesh` comes before every draw of `otherMesh` in the
step list — the ordering constraint claim C2 places between the
light-marker phase and the opaque phase. -/
def drawsPrecede (steps : List FrameStep) (lightMesh otherMesh : String) : Prop :=
  ∀ i j : Fin steps.length,
    isMeshDraw (steps.get i) lightMesh = true →
    isMeshDraw (steps.get j) otherMesh = true →
    (i : ℕ) < (j : ℕ)

/-- The per-frame sequence exactly as claim C2 states it (light markers
drawn between opening the main pass and the opaque geometry); this
definition follows the spec's words, for comparison with the code's
`WgpuRenderer.render`. -/
def claimedFrame (acquire_ok : Bool) (w : World) : List FrameStep :=
  if acquire_ok then
    FrameStep.acquireTarget ::
      (((Cmd.beginRenderPass "Opaque Render Pass" true (some 1) ::
         (Cmd.setPipeline "Light Render Pipeline" ::
          (w.light_models.flatMap
            (fun m => draw_light_model m cameraBindGroupLabel "light_bind_group") ++
           (Cmd.setPipeline "Opaque Render Pipeline" ::
            (w.models.flatMap (entityDraws false) ++
             (Cmd.setPipeline "Transparent Render Pipeline" ::
              (w.models.flatMap (entityDraws true) ++ [Cmd.endRenderPass]))))))) ++
        (if w.show_depth_buffer then DepthPass.render else [])).map FrameStep.cmd ++
       [FrameStep.submit, FrameStep.present])
  else
    [FrameStep.acquireTarget, FrameStep.logSurfaceError]

/-- A fully opaque material (`alpha == 1.0`). -/
def opaqueTeapotMaterial : Material :=
  { name := "teapot material"
    diffuse_texture := "teapot.png"
    alpha := F32.one
    bind_group :=
      { uniform := { base_color := ⟨1,1,1,1⟩, alpha := F32.one }
        texture := "teapot.png" } }

/-- A transparent material (`alpha == 0.5 < 1.0`). -/
def glassMaterial : Material :=
  { name := "glass material"
    diffuse_texture := "glass.png"
    alpha := .fin (mkRat 1 2)
    bind_group :=
      { uniform := { base_color := ⟨1,1,1,1⟩, alpha := .fin (mkRat 1 2) }
        texture := "glass.png" } }

/-- A material whose alpha is out of range (`alpha == 2.0 > 1.0`). -/
def overAlphaMaterial : Material :=
  { name := "over material"
    diffuse_texture := "over.png"
    alpha := .fin 2
    bind_group :=
      { uniform := { base_color := ⟨1,1,1,1⟩, alpha := .fin 2 }
        texture := "over.png" } }

/-- A one-mesh model with one opaque material (the loaded `teapot.obj` of
`src/main.rs:229-276`). -/
def teapotModel : Model :=
  { meshes := [⟨"teapot.obj", 9, 0⟩], materials := [opaqueTeapotMaterial] }

/-- A two-sub-mesh model mixing an opaque and a transparent material
(spec §8 Scenario B). -/
def mixedModel : Model :=
  { meshes := [⟨"solid part", 3, 0⟩, ⟨"glass part", 3, 1⟩]
    materials := [opaqueTeapotMaterial, glassMaterial] }

/-- The light's proxy cube model (`spawn_light`, `src/main.rs:210-227`:
a unit cube with an empty material list). -/
def lightCubeModel : Model :=
  { meshes := [⟨"cube", 36, 0⟩], materials := [] }

/-- A concrete scene: one opaque teapot entity and the light entity. -/
def w0 : World :=
  { models := [⟨teapotModel, "Instance Buffer", none⟩]
    light_models := [lightCubeModel]
    clear_color_is_set := true
    show_depth_buffer := false }

/-- A concrete transform (translate by (1,2,3), identity rotation,
uniform scale 2). -/
def t1 : Transform := ⟨⟨1,2,3⟩, ⟨0,0,0,1⟩, ⟨2,2,2⟩⟩

/-- The identity transform. -/
def t2 : Transform := ⟨⟨0,0,0⟩, ⟨0,0,0,1⟩, ⟨1,1,1⟩⟩

/-- A concrete three-frame history for an instanced entity: spawned with
one instance, grown to two (marked changed), then left unchanged. -/
def framesEx : List InstanceFrame :=
  [⟨[t1], true⟩, ⟨[t1, t2], true⟩, ⟨[t2, t1], false⟩]

/-- A one-mesh model whose only material has alpha `2.0`. -/
def overModel : Model :=
  { meshes := [⟨"over", 3, 0⟩], materials := [overAlphaMaterial] }

/-- A concrete tick history: surface acquisition fails twice in a row
("outdated" swap target), then succeeds (spec §8 Scenario D). -/
def framesC5 : List (Except String Unit) :=
  [Except.error "Outdated", Except.error "Outdated", Except.ok ()]

/-! ## Theorems -/

/-- Claim C6: the opaque pipeline is built with depth test enabled, depth
write enabled and replace (no) blending; the transparent pipeline with
depth test enabled, depth write enabled and alpha blending; and the two
share the depth compare function, the depth format, the vertex buffer
layouts (mesh vertex layout plus instance matrix layout) and the pipeline
layout. -/
theorem C6_pipeline_configuration :
    render_pipeline.depth_stencil =
      some { format := Texture.DEPTH_FORMAT
             depth_write_enabled := true
             depth_compare := CompareFunction.less } ∧
    render_pipeline.blend = BlendState.replace ∧
    transparent_render_pipeline.depth_stencil =
      some { format := Texture.DEPTH_FORMAT
             depth_write_enabled := true
             depth_compare := CompareFunction.less } ∧
    transparent_render_pipeline.blend = BlendState.alphaBlending ∧
    transparent_render_pipeline.depth_stencil = render_pipeline.depth_stencil ∧
    transparent_render_pipeline.buffers = render_pipeline.buffers ∧
    render_pipeline.buffers = [VertexLayoutId.modelVertex, VertexLayoutId.transformRaw] ∧
    transparent_render_pipeline.layout = render_pipeline.layout :=
  ⟨rfl, rfl, rfl, rfl, rfl, rfl, rfl, rfl⟩

/-- Claim C10: the light-marker pipeline is built with depth writes
disabled while keeping the `Less` depth comparison, and, under standard
depth-test semantics, a draw through it never changes a stored depth
value. -/
theorem C10_light_pipeline_depth_readonly :
    light_render_pipeline.depth_stencil =
      some { format := Texture.DEPTH_FORMAT
             depth_write_enabled := false
             depth_compare := CompareFunction.less } ∧
    ∀ ds : DepthStencilState,
      light_render_pipeline.depth_stencil = some ds →
      ∀ stored fragment : ℚ, depthAfterFragment ds stored fragment = stored := by
  refine ⟨rfl, ?_⟩
  intro ds hds stored fragment
  have hd : ({ format := Texture.DEPTH_FORMAT
               depth_write_enabled := false
               depth_compare := CompareFunction.less } : DepthStencilState) = ds :=
    Option.some.inj hds
  subst hd
  simp [depthAfterFragment]

/-- Witness for C10 at a concrete stored depth `1` and fragment depth
`1/2` (the fragment is closer, yet the stored value is unchanged). -/
theorem C10_witness :
    depthAfterFragment
      { format := Texture.DEPTH_FORMAT
        depth_write_enabled := false
        depth_compare := CompareFunction.less } 1 (1/2) = 1 :=
  C10_light_pipeline_depth_readonly.2 _ rfl 1 (1/2)

/-- Claim C8: `Material::new` stores alpha `1.0` in the returned material
regardless of its `alpha` argument, while the argument is what gets
written into the GPU material uniform; consequently a model using such a
material draws in the opaque pass and never in the transparent pass. -/
theorem C8_material_new_ignores_alpha (name texture : String) (base_color : Vec4)
    (alpha : F32) (mesh : ModelMesh) (n : Nat) (bg : String)
    (hid : mesh.material_id = 0) :
    (Material.new name texture base_color alpha).alpha = F32.one ∧
    (Material.new name texture base_color alpha).bind_group.uniform.alpha = alpha ∧
    (Model.mk [mesh] [Material.new name texture base_color alpha]).draw_instanced n false bg =
      mesh.draw_instanced n (Material.new name texture base_color alpha) bg ∧
    (Model.mk [mesh] [Material.new name texture base_color alpha]).draw_instanced n true bg = [] := by
  refine ⟨rfl, rfl, ?_, ?_⟩ <;>
    simp [Model.draw_instanced, Model.meshDraws, Material.new, hid, F32.eqF, F32.ltF, F32.one]

/-- Witness for C8: a material constructed with alpha `1/2` still stores
alpha `1.0`, writes `1/2` to the uniform, and draws only in the opaque
pass. -/
theorem C8_witness :
    (Material.new "m" "t" ⟨1,1,1,1⟩ (F32.fin (1/2))).alpha = F32.one ∧
    (Material.new "m" "t" ⟨1,1,1,1⟩ (F32.fin (1/2))).bind_group.uniform.alpha = F32.fin (1/2) ∧
    (Model.mk [⟨"mesh",3,0⟩] [Material.new "m" "t" ⟨1,1,1,1⟩ (F32.fin (1/2))]).draw_instanced 1 false "bg" =
      ModelMesh.draw_instanced ⟨"mesh",3,0⟩ 1 (Material.new "m" "t" ⟨1,1,1,1⟩ (F32.fin (1/2))) "bg" ∧
    (Model.mk [⟨"mesh",3,0⟩] [Material.new "m" "t" ⟨1,1,1,1⟩ (F32.fin (1/2))]).draw_instanced 1 true "bg" = [] :=
  C8_material_new_ignores_alpha "m" "t" ⟨1,1,1,1⟩ (F32.fin (1/2)) ⟨"mesh",3,0⟩ 1 "bg" rfl

/-- Claim C9: a sub-mesh whose material's alpha is strictly greater than
`1.0`, or NaN, is drawn in neither pass: the transparent branch requires
`alpha < 1.0` and the opaque branch `alpha == 1.0`, and both comparisons
are false for such values. -/
theorem C9_out_of_range_alpha_never_drawn (m : Model) (mesh : ModelMesh)
    (n : Nat) (bg : String)
    (h : (∃ q : ℚ, (materialOf m mesh).alpha = F32.fin q ∧ 1 < q) ∨
         (materialOf m mesh).alpha = F32.nan) :
    m.meshDraws n true bg mesh = [] ∧ m.meshDraws n false bg mesh = [] := by
  have hlt : F32.ltF (materialOf m mesh).alpha F32.one = false := by
    rcases h with ⟨q, hq, h1⟩ | hq
    · simp only [hq, F32.ltF, F32.one, decide_eq_false_iff_not, not_lt]
      linarith
    · simp [hq, F32.ltF]
  have heq : F32.eqF (materialOf m mesh).alpha F32.one = false := by
    rcases h with ⟨q, hq, h1⟩ | hq
    · simp only [hq, F32.eqF, F32.one, decide_eq_false_iff_not]
      intro he
      linarith
    · simp [hq, F32.eqF]
  simp only [materialOf, List.getD_eq_getElem?_getD] at hlt heq
  constructor <;> simp [Model.meshDraws, hlt, heq]

/-- Witness for C9 at the concrete model whose material has alpha `2.0`. -/
theorem C9_witness :
    overModel.meshDraws 1 true "bg" ⟨"over",3,0⟩ = [] ∧
    overModel.meshDraws 1 false "bg" ⟨"over",3,0⟩ = [] :=
  C9_out_of_range_alpha_never_drawn overModel ⟨"over",3,0⟩ 1 "bg"
    (Or.inl ⟨2, rfl, by norm_num⟩)

/-- Helper: glam's fused `from_scale_rotation_translation` equals the
matrix product `translation * rotation * scale` (scale applied first). -/
theorem from_srt_eq_mul (s : Vec3) (r : Quat) (t : Vec3) :
    Mat4.from_scale_rotation_translation s r t =
      (Mat4.from_translation t).mul ((Mat4.from_quat r).mul (Mat4.from_scale s)) := by
  simp only [Mat4.from_scale_rotation_translation, Mat4.from_translation, Mat4.from_quat,
    Mat4.from_scale, Mat4.mul, Mat4.mulVec4, Vec4.scale, Vec4.add, quatToAxes,
    Mat4.mk.injEq, Vec4.mk.injEq]
  repeat' constructor
  all_goals ring

/-- Claim C4: every per-instance world matrix equals
`translation * rotation * scale` (scale first, then rotation, then
translation), this is the same composition `MeshUniform::from_mesh` uses,
and for any instance list of length at least 1 the packed buffer data
holds, at each index `i`, exactly the matrix of instance `i`'s own
transform. -/
theorem C4_instance_matrix (tr : Transform) (instances : List Transform)
    (hN : 1 ≤ instances.length) (i : Nat) (hi : i < instances.length)
    (hi' : i < (instanceData instances).length) :
    tr.to_raw =
      (Mat4.from_translation tr.translation).mul
        ((Mat4.from_quat tr.rotation).mul (Mat4.from_scale tr.scale)) ∧
    MeshUniform.from_mesh tr = tr.to_raw ∧
    (instanceData instances).get ⟨i, hi'⟩ = (instances.get ⟨i, hi⟩).to_raw := by
  refine ⟨?_, rfl, ?_⟩
  · rw [Transform.to_raw, from_srt_eq_mul]
  · simp [instanceData, List.get_eq_getElem, List.getElem_map]

/-- Witness for C4 at the concrete transform `t1` and the two-element
instance list `[t1, t2]`, index 1. -/
theorem C4_witness :
    t1.to_raw =
      (Mat4.from_translation t1.translation).mul
        ((Mat4.from_quat t1.rotation).mul (Mat4.from_scale t1.scale)) ∧
    MeshUniform.from_mesh t1 = t1.to_raw ∧
    (instanceData [t1, t2]).get ⟨1, by decide⟩ = ([t1, t2].get ⟨1, by decide⟩).to_raw :=
  C4_instance_matrix t1 [t1, t2] (by decide) 1 (by decide) (by decide)

/-- Claim C5: when per-frame surface acquisition fails, the frame is
abandoned without crashing — the error is logged, nothing is submitted —
and this holds at every position of any tick history (so in particular for
any number of consecutive failures); a tick whose acquisition succeeds
records and submits the frame normally. -/
theorem C5_frame_drop_recovery (frames : List (Except String Unit))
    (config : DebugConfig) (i : Nat) (hi : i < frames.length)
    (hi' : i < (renderFrames frames config).length) :
    (∀ e : String, frames.get ⟨i, hi⟩ = .error e →
      (renderFrames frames config).get ⟨i, hi'⟩ = [Effect.droppedFrameLog] ∧
      Effect.submit ∉ (renderFrames frames config).get ⟨i, hi'⟩) ∧
    (frames.get ⟨i, hi⟩ = .ok () →
      (renderFrames frames config).get ⟨i, hi'⟩ =
        Effect.mainPassDraw ::
          ((if config.glyph then [Effect.debugText] else []) ++
           (if config.imgui then [Effect.imguiDraw] else []) ++ [Effect.submit]) ∧
      Effect.submit ∈ (renderFrames frames config).get ⟨i, hi'⟩) ∧
    Effect.crashed ∉ (renderFrames frames config).get ⟨i, hi'⟩ := by
  have hget : (renderFrames frames config).get ⟨i, hi'⟩ =
      Renderer.render (frames.get ⟨i, hi⟩) config := by
    simp [renderFrames, List.get_eq_getElem, List.getElem_map]
  rw [hget]
  refine ⟨?_, ?_, ?_⟩
  · intro e he
    rw [he]
    exact ⟨rfl, by simp [Renderer.render]⟩
  · intro he
    rw [he]
    refine ⟨rfl, ?_⟩
    simp [Renderer.render]
  · cases hf : frames.get ⟨i, hi⟩ with
    | error e => simp [Renderer.render]
    | ok u =>
      cases u
      simp only [Renderer.render, List.mem_cons, List.mem_append]
      intro hmem
      rcases hmem with h | h
      · exact Effect.noConfusion h
      rcases h with (h | h) | h
      · revert h; split <;> simp
      · revert h; split <;> simp
      · simp at h

/-- Witness for C5: acquisition fails twice then succeeds; the two failed
ticks only log, the successful tick submits, and no tick crashes. -/
theorem C5_witness :
    (renderFrames framesC5 ⟨false, false⟩).get ⟨0, by decide⟩ = [Effect.droppedFrameLog] ∧
    Effect.submit ∉ (renderFrames framesC5 ⟨false, false⟩).get ⟨0, by decide⟩ ∧
    (renderFrames framesC5 ⟨false, false⟩).get ⟨2, by decide⟩ =
      [Effect.mainPassDraw, Effect.submit] ∧
    Effect.submit ∈ (renderFrames framesC5 ⟨false, false⟩).get ⟨2, by decide⟩ ∧
    Effect.crashed ∉ (renderFrames framesC5 ⟨false, false⟩).get ⟨0, by decide⟩ ∧
    Effect.crashed ∉ (renderFrames framesC5 ⟨false, false⟩).get ⟨2, by decide⟩ := by
  have h0 := C5_frame_drop_recovery framesC5 ⟨false, false⟩ 0 (by decide) (by decide)
  have h2 := C5_frame_drop_recovery framesC5 ⟨false, false⟩ 2 (by decide) (by decide)
  exact ⟨(h0.1 "Outdated" rfl).1, (h0.1 "Outdated" rfl).2,
         (h2.2.1 rfl).1, (h2.2.1 rfl).2, h0.2.2, h2.2.2⟩

/-- Helper: draw counting distributes over concatenation. -/
theorem countDraws_append (a b : List Cmd) :
    countDraws (a ++ b) = countDraws a + countDraws b := by
  simp [countDraws, List.countP_append]

/-- Helper: if every mesh contributes exactly one draw, a pass over all
meshes contributes one draw per mesh. -/
theorem countDraws_flatMap_ones (meshes : List ModelMesh) (f : ModelMesh → List Cmd)
    (hone : ∀ mesh ∈ meshes, countDraws (f mesh) = 1) :
    countDraws (meshes.flatMap f) = meshes.length := by
  induction meshes with
  | nil => rfl
  | cons m ms ih =>
    rw [List.flatMap_cons, countDraws_append, hone m (by simp),
      ih (fun mesh hm => hone mesh (by simp [hm]))]
    simp [Nat.add_comm]

/-- Helper: a single mesh draw block contains exactly one draw call. -/
theorem countDraws_mesh_block (mesh : ModelMesh) (n : Nat) (material : Material)
    (bg : String) :
    countDraws (mesh.draw_instanced n material bg) = 1 := by
  simp [countDraws, ModelMesh.draw_instanced, List.countP_cons, isDrawCmd]

/-- Claim C3: when the model source yields an empty materials list,
`load_model` returns a model with exactly one material — the default
fully-opaque pink material — every mesh lacking a source material index is
assigned material index 0 (hence resolves to a valid material), and each
such mesh produces exactly one opaque draw and no transparent draw. -/
theorem C3_default_material_substitution (obj_meshes : List ObjMesh)
    (n : Nat) (bg : String)
    (h : ∀ m ∈ obj_meshes, m.material_id = none) :
    (load_model [] obj_meshes).materials = [default_material] ∧
    (∀ mesh ∈ (load_model [] obj_meshes).meshes,
       mesh.material_id = 0 ∧
       mesh.material_id < (load_model [] obj_meshes).materials.length ∧
       materialOf (load_model [] obj_meshes) mesh = default_material ∧
       countDraws ((load_model [] obj_meshes).meshDraws n false bg mesh) = 1 ∧
       (load_model [] obj_meshes).meshDraws n true bg mesh = []) ∧
    countDraws ((load_model [] obj_meshes).draw_instanced n false bg) =
      obj_meshes.length := by
  have hmats : (load_model [] obj_meshes).materials = [default_material] := rfl
  have hmesh : ∀ mesh ∈ (load_model [] obj_meshes).meshes, mesh.material_id = 0 := by
    intro mesh hm
    simp only [load_model, List.mem_map] at hm
    obtain ⟨src, hsrc, rfl⟩ := hm
    simp [h src hsrc]
  have hdraws : ∀ mesh ∈ (load_model [] obj_meshes).meshes,
      countDraws ((load_model [] obj_meshes).meshDraws n false bg mesh) = 1 ∧
      (load_model [] obj_meshes).meshDraws n true bg mesh = [] := by
    intro mesh hm
    have h0 := hmesh mesh hm
    constructor
    · rw [Model.meshDraws]
      simp only [hmats, h0]
      simp [default_material, F32.eqF, F32.ltF, F32.one]
      exact countDraws_mesh_block mesh n _ bg
    · rw [Model.meshDraws]
      simp only [hmats, h0]
      simp [default_material, F32.ltF, F32.one]
  refine ⟨hmats, ?_, ?_⟩
  · intro mesh hm
    refine ⟨hmesh mesh hm, ?_, ?_, (hdraws mesh hm).1, (hdraws mesh hm).2⟩
    · rw [hmesh mesh hm, hmats]
      decide
    · rw [materialOf, hmesh mesh hm, hmats]
      rfl
  · rw [Model.draw_instanced]
    rw [countDraws_flatMap_ones _ _ (fun mesh hm => (hdraws mesh hm).1)]
    simp [load_model]

/-- Witness for C3: a single source mesh with no material index against an
empty source material list. -/
theorem C3_witness :
    (load_model [] [⟨"mesh1", 9, none⟩]).materials = [default_material] ∧
    countDraws ((load_model [] [⟨"mesh1", 9, none⟩]).draw_instanced 1 false "bg") = 1 ∧
    countDraws ((load_model [] [⟨"mesh1", 9, none⟩]).meshDraws 1 false "bg" ⟨"mesh1", 9, 0⟩) = 1 ∧
    (load_model [] [⟨"mesh1", 9, none⟩]).meshDraws 1 true "bg" ⟨"mesh1", 9, 0⟩ = [] := by
  have h := C3_default_material_substitution [⟨"mesh1", 9, none⟩] 1 "bg"
    (by intro m hm; simp at hm; rw [hm])
  have hm := h.2.1 ⟨"mesh1", 9, 0⟩ (by simp [load_model])
  exact ⟨h.1, h.2.2, hm.2.2.2.1, hm.2.2.2.2⟩

/-- Helper: once the entity has a buffer, further frames never allocate
again (creations stay fixed) and the buffer stays present. -/
theorem instanceFold_preserves (fs : List InstanceFrame) (s : EntityBufferState)
    (b : List Mat4) (hs : s.buffer = some b) :
    (fs.foldl instanceFrameStep s).creations = s.creations ∧
    ∃ b', (fs.foldl instanceFrameStep s).buffer = some b' := by
  induction fs generalizing s b with
  | nil => exact ⟨rfl, b, hs⟩
  | cons f fs ih =>
    rw [List.foldl_cons]
    have hstep : instanceFrameStep s f =
        if f.changed then { s with buffer := some (instanceData f.instances) } else s := by
      rw [instanceFrameStep, hs]
    cases hc : f.changed
    · rw [hstep, hc, if_neg (by simp)]
      exact ih s b hs
    · rw [hstep, hc, if_pos rfl]
      exact ih _ (instanceData f.instances) rfl

/-- Helper: unfolding one frame of the lifecycle fold. -/
theorem stateAfter_succ (frames : List InstanceFrame) (k : Nat)
    (hk : k < frames.length) :
    stateAfter frames (k+1) =
      instanceFrameStep (stateAfter frames k) (frames.get ⟨k, hk⟩) := by
  unfold stateAfter
  rw [List.take_succ, List.foldl_append]
  simp [List.getElem?_eq_getElem hk, List.get_eq_getElem]

/-- Helper: from the first frame on, the entity owns exactly one ever
allocated buffer. -/
theorem stateAfter_after_first (frames : List InstanceFrame) (hne : frames ≠ [])
    (k : Nat) (hk : 1 ≤ k) :
    (stateAfter frames k).creations = 1 ∧
    ∃ b, (stateAfter frames k).buffer = some b := by
  obtain ⟨f0, rest, rfl⟩ := List.exists_cons_of_ne_nil hne
  obtain ⟨j, rfl⟩ := Nat.exists_eq_add_of_le hk
  unfold stateAfter
  rw [Nat.add_comm 1 j, List.take_succ_cons, List.foldl_cons]
  have h0 : instanceFrameStep ⟨none, 0⟩ f0 =
      ⟨some (instanceData f0.instances), 1⟩ := rfl
  rw [h0]
  exact instanceFold_preserves _ _ (instanceData f0.instances) rfl

/-- Claim C7: the instance buffer is created exactly once — on the first
frame the entity is seen without one, sized from that frame's instance
list — later frames never allocate a replacement; every frame whose
`Instances` are marked changed rewrites that same buffer in place with the
packed matrices of all current instances; frames without the changed mark
leave the state untouched. -/
theorem C7_instance_buffer_lifecycle (frames : List InstanceFrame)
    (hne : frames ≠ []) :
    (∀ h0 : 0 < frames.length,
       stateAfter frames 1 =
         ⟨some (instanceData (frames.get ⟨0, h0⟩).instances), 1⟩) ∧
    (∀ k, 1 ≤ k → (stateAfter frames k).creations = 1) ∧
    (∀ k, ∀ hk : k < frames.length, 1 ≤ k → (frames.get ⟨k, hk⟩).changed = true →
       (stateAfter frames (k+1)).buffer =
         some (instanceData (frames.get ⟨k, hk⟩).instances) ∧
       (stateAfter frames (k+1)).creations = 1) ∧
    (∀ k, ∀ hk : k < frames.length, 1 ≤ k → (frames.get ⟨k, hk⟩).changed = false →
       stateAfter frames (k+1) = stateAfter frames k) := by
  refine ⟨?_, ?_, ?_, ?_⟩
  · intro h0
    obtain ⟨f0, rest, rfl⟩ := List.exists_cons_of_ne_nil hne
    rfl
  · intro k hk
    exact (stateAfter_after_first frames hne k hk).1
  · intro k hk h1 hch
    obtain ⟨b, hb⟩ := (stateAfter_after_first frames hne k h1).2
    have hcr := (stateAfter_after_first frames hne k h1).1
    rw [stateAfter_succ frames k hk, instanceFrameStep, hb, hch]
    exact ⟨by simp, hcr⟩
  · intro k hk h1 hch
    obtain ⟨b, hb⟩ := (stateAfter_after_first frames hne k h1).2
    rw [stateAfter_succ frames k hk, instanceFrameStep, hb, hch]
    simp

/-- Witness for C7 on the concrete three-frame history `framesEx`:
creation on frame 0 sized to one instance, an in-place rewrite on the
changed frame 1, an untouched state on the unchanged frame 2, and exactly
one allocation throughout. -/
theorem C7_witness :
    stateAfter framesEx 1 = ⟨some (instanceData [t1]), 1⟩ ∧
    (stateAfter framesEx 3).creations = 1 ∧
    ((stateAfter framesEx 2).buffer = some (instanceData [t1, t2]) ∧
     (stateAfter framesEx 2).creations = 1) ∧
    stateAfter framesEx 3 = stateAfter framesEx 2 := by
  have h := C7_instance_buffer_lifecycle framesEx (by decide)
  exact ⟨h.1 (by decide), h.2.1 3 (by decide),
         h.2.2.1 1 (by decide) (by decide) rfl,
         h.2.2.2 2 (by decide) (by decide) rfl⟩

/-- Helper: draw count of one sub-mesh's contribution to the opaque pass:
one draw call if the material's alpha `== 1.0`, none otherwise. -/
theorem meshDraws_opaque_count (m : Model) (n : Nat) (bg : String) (mesh : ModelMesh) :
    countDraws (m.meshDraws n false bg mesh) =
      if F32.eqF (materialOf m mesh).alpha F32.one then 1 else 0 := by
  simp only [Model.meshDraws]
  rw [show m.materials.getD mesh.material_id Material.oobFallback = materialOf m mesh from rfl]
  cases h : F32.eqF (materialOf m mesh).alpha F32.one
  · simp [h, countDraws]
  · simp [h, countDraws_mesh_block]

/-- Helper: draw count of one sub-mesh's contribution to the transparent
pass: one draw call if the material's alpha `< 1.0`, none otherwise. -/
theorem meshDraws_count_transparent (m : Model) (n : Nat) (bg : String) (mesh : ModelMesh) :
    countDraws (m.meshDraws n true bg mesh) =
      if F32.ltF (materialOf m mesh).alpha F32.one then 1 else 0 := by
  simp only [Model.meshDraws]
  rw [show m.materials.getD mesh.material_id Material.oobFallback = materialOf m mesh from rfl]
  cases h : F32.ltF (materialOf m mesh).alpha F32.one
  · simp [h, countDraws]
  · simp [h, countDraws_mesh_block]

/-- Helper: a pass over all meshes has a draw as soon as one mesh
contributes one. -/
theorem countDraws_flatMap_ne_zero (meshes : List ModelMesh) (f : ModelMesh → List Cmd)
    (mesh : ModelMesh) (hm : mesh ∈ meshes) (hc : countDraws (f mesh) ≠ 0) :
    countDraws (meshes.flatMap f) ≠ 0 := by
  intro h0
  apply hc
  simp only [countDraws, List.countP_eq_zero] at h0 ⊢
  intro c hcmem
  exact h0 c (List.mem_flatMap.2 ⟨mesh, hm, hcmem⟩)

/-- Helper: a pass over all meshes draws only if some mesh contributes a
draw. -/
theorem exists_mesh_of_countDraws_ne_zero (meshes : List ModelMesh)
    (f : ModelMesh → List Cmd) (h : countDraws (meshes.flatMap f) ≠ 0) :
    ∃ mesh ∈ meshes, countDraws (f mesh) ≠ 0 := by
  by_contra hno
  push_neg at hno
  apply h
  simp only [countDraws, List.countP_eq_zero] at hno ⊢
  intro c hc
  obtain ⟨mesh, hmesh, hcm⟩ := List.mem_flatMap.1 hc
  exact hno mesh hmesh c hcm

/-- Helper: the material a mesh resolves to is one of the model's
materials whenever its index is in bounds. -/
theorem materialOf_mem (m : Model) (mesh : ModelMesh)
    (h : mesh.material_id < m.materials.length) :
    materialOf m mesh ∈ m.materials := by
  rw [materialOf, List.getD_eq_getElem m.materials Material.oobFallback h]
  exact List.getElem_mem h

/-- Helper: `alpha == 1.0` and `alpha < 1.0` cannot hold together. -/
theorem eqF_ltF_exclusive (a : F32) :
    ¬(F32.eqF a F32.one = true ∧ F32.ltF a F32.one = true) := by
  rintro ⟨h1, h2⟩
  cases a with
  | fin q =>
    simp [F32.eqF, F32.one] at h1
    simp [F32.ltF, F32.one] at h2
    linarith
  | nan => simp [F32.eqF] at h1

/-- Helper: draw count of an entity's transparent-pass contribution equals
that of its model's transparent `draw_instanced` (the extra command of
`entityDraws` is only a vertex-buffer bind). -/
theorem countDraws_entityDraws (transparent : Bool) (e : RenderEntity) :
    countDraws (entityDraws transparent e) =
      countDraws (e.model.draw_instanced e.instanceCount transparent cameraBindGroupLabel) := by
  rw [entityDraws]
  cases hi : e.instances with
  | none =>
    simp [countDraws, List.countP_cons, isDrawCmd, Model.draw,
      RenderEntity.instanceCount, hi]
  | some k =>
    simp [countDraws, List.countP_cons, isDrawCmd, RenderEntity.instanceCount, hi]

/-- Claim C1: a sub-mesh produces a draw call in the opaque pass iff its
material's alpha `== 1.0` and in the transparent pass iff its alpha
`< 1.0`; an entity contributes transparent-pass draws only if at least one
of its materials has alpha `< 1`; and a model whose materials mix
`alpha == 1.0` and `alpha < 1.0` contributes draws to both passes, each
sub-mesh drawing in exactly one of them. -/
theorem C1_pass_partition (m : Model) (n : Nat) (bg : String) :
    (∀ mesh ∈ m.meshes,
       countDraws (m.meshDraws n false bg mesh) =
         (if F32.eqF (materialOf m mesh).alpha F32.one then 1 else 0) ∧
       countDraws (m.meshDraws n true bg mesh) =
         (if F32.ltF (materialOf m mesh).alpha F32.one then 1 else 0)) ∧
    (∀ e : RenderEntity,
       (∀ mesh ∈ e.model.meshes, mesh.material_id < e.model.materials.length) →
       countDraws (entityDraws true e) ≠ 0 →
       ∃ material ∈ e.model.materials, F32.ltF material.alpha F32.one = true) ∧
    ((∀ mesh ∈ m.meshes,
        F32.eqF (materialOf m mesh).alpha F32.one = true ∨
        F32.ltF (materialOf m mesh).alpha F32.one = true) →
     (∃ mesh ∈ m.meshes, F32.eqF (materialOf m mesh).alpha F32.one = true) →
     (∃ mesh ∈ m.meshes, F32.ltF (materialOf m mesh).alpha F32.one = true) →
     countDraws (m.draw_instanced n false bg) ≠ 0 ∧
     countDraws (m.draw_instanced n true bg) ≠ 0 ∧
     ∀ mesh ∈ m.meshes,
       countDraws (m.meshDraws n false bg mesh) +
         countDraws (m.meshDraws n true bg mesh) = 1) := by
  refine ⟨?_, ?_, ?_⟩
  · intro mesh _
    exact ⟨meshDraws_opaque_count m n bg mesh, meshDraws_count_transparent m n bg mesh⟩
  · intro e hwf hne
    rw [countDraws_entityDraws, Model.draw_instanced] at hne
    obtain ⟨mesh, hmesh, hc⟩ := exists_mesh_of_countDraws_ne_zero _ _ hne
    rw [meshDraws_count_transparent] at hc
    refine ⟨materialOf e.model mesh, materialOf_mem e.model mesh (hwf mesh hmesh), ?_⟩
    by_contra hlt
    simp only [Bool.not_eq_true] at hlt
    rw [hlt] at hc
    simp at hc
  · intro hall ⟨meshEq, hmeshEq, hEq⟩ ⟨meshLt, hmeshLt, hLt⟩
    refine ⟨?_, ?_, ?_⟩
    · rw [Model.draw_instanced]
      apply countDraws_flatMap_ne_zero _ _ meshEq hmeshEq
      rw [meshDraws_opaque_count, hEq]
      simp
    · rw [Model.draw_instanced]
      apply countDraws_flatMap_ne_zero _ _ meshLt hmeshLt
      rw [meshDraws_count_transparent, hLt]
      simp
    · intro mesh hmesh
      rw [meshDraws_opaque_count, meshDraws_count_transparent]
      rcases hall mesh hmesh with h | h
      · have hnl : F32.ltF (materialOf m mesh).alpha F32.one = false := by
          by_contra hc
          simp only [Bool.not_eq_false] at hc
          exact eqF_ltF_exclusive _ ⟨h, hc⟩
        rw [h, hnl]
        decide
      · have hne : F32.eqF (materialOf m mesh).alpha F32.one = false := by
          by_contra hc
          simp only [Bool.not_eq_false] at hc
          exact eqF_ltF_exclusive _ ⟨hc, h⟩
        rw [h, hne]
        decide

/-- Witness for C1 on the mixed two-sub-mesh model (Scenario B): the
opaque sub-mesh draws once in the opaque pass, the model draws in both
passes, some material of the entity has alpha `< 1`, and the transparent
sub-mesh draws in exactly one pass. -/
theorem C1_witness :
    countDraws (mixedModel.meshDraws 1 false "bg" ⟨"solid part",3,0⟩) = 1 ∧
    (∃ material ∈ (RenderEntity.mk mixedModel "buf" (some 2)).model.materials,
      F32.ltF material.alpha F32.one = true) ∧
    countDraws (mixedModel.draw_instanced 1 false "bg") ≠ 0 ∧
    countDraws (mixedModel.draw_instanced 1 true "bg") ≠ 0 ∧
    countDraws (mixedModel.meshDraws 1 false "bg" ⟨"glass part",3,1⟩) +
      countDraws (mixedModel.meshDraws 1 true "bg" ⟨"glass part",3,1⟩) = 1 := by
  have h := C1_pass_partition mixedModel 1 "bg"
  have h3 := h.2.2 (by decide)
    ⟨⟨"solid part",3,0⟩, by decide, by decide⟩
    ⟨⟨"glass part",3,1⟩, by decide, by decide⟩
  refine ⟨?_, ?_, h3.1, h3.2.1, h3.2.2 ⟨"glass part",3,1⟩ (by decide)⟩
  · exact (h.1 ⟨"solid part",3,0⟩ (by decide)).1.trans (by decide)
  · exact h.2.1 (RenderEntity.mk mixedModel "buf" (some 2)) (by decide) (by decide)

/-- Counterexample to claim C2 as stated: at the concrete scene `w0` (one
opaque teapot entity, one light entity, depth overlay off) the code's
frame differs from the claimed sequence `claimedFrame` (which places the
light markers before the opaque geometry), and the light-marker draw does
not precede the teapot's opaque draw as the claimed order requires — the
code draws the light markers last, after the transparent section. -/
theorem C2_counterexample :
    WgpuRenderer.render true w0 ≠ claimedFrame true w0 ∧
    ¬ drawsPrecede (WgpuRenderer.render true w0) "cube" "teapot.obj" := by
  constructor
  · decide
  · unfold drawsPrecede
    decide

/-- Claim C2 (amended): each frame performs, in order, acquire target;
open the main pass clearing color and depth (depth to 1.0); draw all
opaque geometry; draw all transparent geometry; draw the light markers;
close the main pass; then the depth overlay iff the show-depth-buffer flag
is set; then submit and present — the light markers come after the
transparent section, not before the opaque one, and no step is recorded
outside this sequence. -/
theorem C2_frame_order (ok : Bool) (w : World) :
    (ok = false →
      WgpuRenderer.render ok w = [FrameStep.acquireTarget, FrameStep.logSurfaceError]) ∧
    (ok = true →
      WgpuRenderer.render ok w =
        FrameStep.acquireTarget ::
          (((Cmd.beginRenderPass "Opaque Render Pass" true (some 1) ::
             Cmd.setPipeline "Opaque Render Pipeline" ::
              (w.models.flatMap (entityDraws false) ++
               (Cmd.setPipeline "Transparent Render Pipeline" ::
                (w.models.flatMap (entityDraws true) ++
                 (Cmd.setPipeline "Light Render Pipeline" ::
                  (w.light_models.flatMap
                    (fun m => draw_light_model m cameraBindGroupLabel "light_bind_group") ++
                   [Cmd.endRenderPass])))))) ++
            (if w.show_depth_buffer then DepthPass.render else [])).map FrameStep.cmd ++
           [FrameStep.submit, FrameStep.present])) := by
  constructor
  · intro h
    rw [h]
    rfl
  · intro h
    rw [h]
    rfl

/-- Witness for the amended C2 at the concrete scene `w0`, both for a
failed and for a successful acquisition. -/
theorem C2_witness :
    WgpuRenderer.render false w0 = [FrameStep.acquireTarget, FrameStep.logSurfaceError] ∧
    WgpuRenderer.render true w0 =
      FrameStep.acquireTarget ::
        (((Cmd.beginRenderPass "Opaque Render Pass" true (some 1) ::
           Cmd.setPipeline "Opaque Render Pipeline" ::
            (w0.models.flatMap (entityDraws false) ++
             (Cmd.setPipeline "Transparent Render Pipeline" ::
              (w0.models.flatMap (entityDraws true) ++
               (Cmd.setPipeline "Light Render Pipeline" ::
                (w0.light_models.flatMap
                  (fun m => draw_light_model m cameraBindGroupLabel "light_bind_group") ++
                 [Cmd.endRenderPass])))))) ++
          (if w0.show_depth_buffer then DepthPass.render else [])).map FrameStep.cmd ++
         [FrameStep.submit, FrameStep.present]) :=
  ⟨(C2_frame_order false w0).1 rfl, (C2_frame_order true w0).2 rfl⟩

end LearnWgpu
